import Mathlib

/-!
# Ensenso driver node: control surface and frame converter

A shallow embedding of `src/ensenso_driver_node.cpp` (class `ensenso_ros_driver`):
the three service handlers `configureStreamingCB`, `startStreamingCB`,
`CaptureSingleCloudSrvCB`, the helper `singleCloud`, and the converter `toImageMsg`.

The grabber object behind `ensenso_ptr_` (class `pcl::EnsensoGrabber`, header
`ensenso/ensenso_grabber.h`) and the OpenCV / cv_bridge image types are not part of
the source file; they are modelled below, each model saying so in its doc comment.
-/

namespace Ensenso

/-! ## The grabber behind `ensenso_ptr_` -/

/-- The three overloads of `grabberCallback` that `configureStreamingCB` can bind and
register with the grabber: cloud only, the two image pairs, or cloud plus image pairs. -/
inductive Callback
  | cloud
  | images
  | cloudAndImages
  deriving DecidableEq, Repr

/-- Operations the driver issues on the grabber and on its signal connection, in the
order they are issued. `isRunning` is a read-only query, the others are commands. -/
inductive DeviceOp
  | isRunning
  | stop
  | start
  | grabSingleCloud
  | disconnect
  | registerCallback (f : Callback)
  deriving DecidableEq, Repr

/-- Modelled from the spec: the state of the `pcl::EnsensoGrabber` object, whose class
is not in the source file. `running` is the RunState (true = Streaming, false = Idle);
`slot` is the signal slot, the list of currently connected callbacks, each with the
identifier of its connection; `fresh` is the identifier the next registration gets;
`log` records the operations issued so far (a ghost trace, never read by the code). -/
structure Grabber where
  running : Bool
  slot : List (Nat × Callback)
  fresh : Nat
  log : List DeviceOp
  deriving DecidableEq, Repr

/-- Modelled from the spec: `isRunning()` of the absent grabber class, the query of
RunState. -/
def Grabber.isRunning (g : Grabber) : Bool × Grabber :=
  (g.running, { g with log := g.log ++ [DeviceOp.isRunning] })

/-- Modelled from the spec: `stop()` of the absent grabber class; it takes effect:
RunState becomes Idle, and it is safe from Idle. -/
def Grabber.stop (g : Grabber) : Grabber :=
  { g with running := false, log := g.log ++ [DeviceOp.stop] }

/-- Modelled from the spec: how `start()` of the absent grabber class treats a slot
with nothing connected. `refusesUnbound` is the device of section 4.1: "`start()` fails
if no CallbackBinding is attached". `takesEffect` is the device whose start always takes
effect, the assumption under which section 8 lets a device "remain Streaming" after a
request for neither product. -/
inductive StartRule
  | refusesUnbound
  | takesEffect
  deriving DecidableEq, Repr

/-- Modelled from the spec: `start()` of the absent grabber class, the transition of
RunState to Streaming. Under `refusesUnbound` (section 4.1) it fails when no callback
is connected and RunState stays as it is; otherwise it takes effect. The driver calls
it as a statement and never reads a result, so a refusal shows in RunState only. The
call is logged either way. -/
def Grabber.start (rule : StartRule) (g : Grabber) : Grabber :=
  match rule with
  | StartRule.refusesUnbound =>
    if g.slot.isEmpty then { g with log := g.log ++ [DeviceOp.start] }
    else { g with running := true, log := g.log ++ [DeviceOp.start] }
  | StartRule.takesEffect =>
    { g with running := true, log := g.log ++ [DeviceOp.start] }

/-- Modelled from the spec: `registerCallback(f)` of the absent grabber class: connects
`f` to the signal slot and returns the handle of the new connection. -/
def Grabber.registerCallback (f : Callback) (g : Grabber) : Nat × Grabber :=
  (g.fresh,
   { g with slot := g.slot ++ [(g.fresh, f)], fresh := g.fresh + 1,
            log := g.log ++ [DeviceOp.registerCallback f] })

/-- Modelled from the spec: `boost::signals2::connection::disconnect()` called on the
handle `c`: the connection `c` refers to, when it is still connected, leaves the slot;
an empty handle (`none`) or one already disconnected changes nothing. -/
def Grabber.disconnect (c : Option Nat) (g : Grabber) : Grabber :=
  { g with
    slot := match c with
      | none => g.slot
      | some h => g.slot.filter (fun e => decide (e.1 ≠ h)),
    log := g.log ++ [DeviceOp.disconnect] }

/-- A point cloud, as far as the driver looks at it: the header's frame identifier and
the points (kept as plain numbers; the driver never inspects them). -/
structure PointCloudXYZ where
  frame_id : String
  points : List Nat
  deriving DecidableEq, Repr

/-- Modelled from the spec: `grabSingleCloud(pts)` of the absent grabber class, the
single-frame capture primitive. What it returns (`res`, zero for failure) and the cloud
it writes are the device's answer, given as arguments; it leaves RunState and the
signal slot alone. -/
def Grabber.grabSingleCloud (res : Int) (cloud : PointCloudXYZ) (g : Grabber) :
    Int × PointCloudXYZ × Grabber :=
  (res, cloud, { g with log := g.log ++ [DeviceOp.grabSingleCloud] })

/-! ## The driver object -/

/-- The fields of `ensenso_ros_driver` the handlers read or write: the configured
frame identifier, the connection handle (`none` is the default-constructed, empty
handle) and the grabber. -/
structure Driver where
  camera_frame_id_ : String
  connection_ : Option Nat
  ensenso_ptr_ : Grabber
  deriving DecidableEq, Repr

/-- The constructor: `camera_frame_id_` is the parameter `~camera_frame_id` when set
and `camera_link` otherwise; the grabber is new (Idle, nothing connected) and
`connection_` is empty. -/
def ensenso_ros_driver (camera_frame_id : Option String) : Driver :=
  { camera_frame_id_ := camera_frame_id.getD "camera_link",
    connection_ := none,
    ensenso_ptr_ := { running := false, slot := [], fresh := 0, log := [] } }

/-- The function `singleCloud`; `rule` is the device's start rule: stop when running, grab one cloud, return false (0) at
once when the grab failed, otherwise start again when it was running and return
true (1). -/
def singleCloud (rule : StartRule) (res : Int) (cloud : PointCloudXYZ) (s : Driver) :
    Int × PointCloudXYZ × Driver :=
  let (was_running, g0) := s.ensenso_ptr_.isRunning
  let g1 := if was_running then g0.stop else g0
  let (res, pts, g2) := g1.grabSingleCloud res cloud
  if res = 0 then
    (0, pts, { s with ensenso_ptr_ := g2 })
  else
    let g3 := if was_running then g2.start rule else g2
    (1, pts, { s with ensenso_ptr_ := g3 })

/-- The message `sensor_msgs::PointCloud2`, as far as the driver fills it. -/
structure PointCloud2 where
  frame_id : String
  stamp : Nat
  points : List Nat
  deriving DecidableEq, Repr

/-- What `CaptureSingleCloudSrvCB` hands back: its return value, the response field
`res.pc`, and the driver afterwards. -/
structure CaptureResult where
  ret : Bool
  pc : PointCloud2
  state : Driver
  deriving DecidableEq, Repr

/-- The handler `CaptureSingleCloudSrvCB`; `rule` is the device's start rule, `req` is
`req.req`, `now` is what `ros::Time::now()` returns, `res` and `cloud` are the device's
answer to the grab. -/
def CaptureSingleCloudSrvCB (rule : StartRule) (req : Bool) (now : Nat) (res : Int)
    (cloud : PointCloudXYZ) (s : Driver) : CaptureResult :=
  let empty : PointCloud2 := { frame_id := "", stamp := 0, points := [] }
  if req then
    let (result, pc, s1) := singleCloud rule res cloud s
    if result ≠ 0 then
      { ret := true,
        pc := { frame_id := s1.camera_frame_id_, stamp := now, points := pc.points },
        state := s1 }
    else
      { ret := false, pc := empty, state := s1 }
  else
    { ret := false, pc := empty, state := s }

/-- The request of the service `ConfigureStreaming`. -/
structure ConfigureStreamingRequest where
  cloud : Bool
  images : Bool
  deriving DecidableEq, Repr

/-- What a handler with a `success` response hands back: its return value, the
response field `res.success`, and the driver afterwards. -/
structure SrvResult where
  ret : Bool
  success : Bool
  state : Driver
  deriving DecidableEq, Repr

/-- The handler `configureStreamingCB`; `rule` is the device's start rule. -/
def configureStreamingCB (rule : StartRule) (req : ConfigureStreamingRequest) (s : Driver) :
    SrvResult :=
  let (was_running, g0) := s.ensenso_ptr_.isRunning
  let g1 := if was_running then g0.stop else g0
  -- Disconnect previous connection
  let g2 := g1.disconnect s.connection_
  -- Connect new signals
  let (connection, g3) :=
    if req.cloud && req.images then
      let (c, g) := g2.registerCallback Callback.cloudAndImages
      (some c, g)
    else if req.images then
      let (c, g) := g2.registerCallback Callback.images
      (some c, g)
    else if req.cloud then
      let (c, g) := g2.registerCallback Callback.cloud
      (some c, g)
    else
      (s.connection_, g2)
  let g4 := if was_running then g3.start rule else g3
  { ret := true, success := true,
    state := { s with connection_ := connection, ensenso_ptr_ := g4 } }

/-- The handler `startStreamingCB`; `rule` is the device's start rule, `data` is
`req.data`. -/
def startStreamingCB (rule : StartRule) (data : Bool) (s : Driver) : SrvResult :=
  let g := if data then s.ensenso_ptr_.start rule else s.ensenso_ptr_.stop
  { ret := true, success := true, state := { s with ensenso_ptr_ := g } }

/-! ## The frame converter -/

/-- The image type `pcl::PCLImage`, as far as `toImageMsg` reads it. `height` and
`width` are 32-bit unsigned fields, `data` is the byte buffer. -/
structure PCLImage where
  height : Nat
  width : Nat
  encoding : String
  data : List Nat
  deriving DecidableEq, Repr

/-- The two OpenCV matrix types `toImageMsg` chooses between (the constants are
OpenCV's, not the source file's). -/
inductive MatType
  | CV_8UC1
  | CV_8UC3
  deriving DecidableEq, Repr

/-- Bytes per pixel of a matrix type: one 8-bit channel or three. -/
def MatType.elemSize : MatType → Nat
  | MatType.CV_8UC1 => 1
  | MatType.CV_8UC3 => 3

/-- Conversion of a 32-bit unsigned value to `int` (two's complement), as happens
when `pcl_image.height` and `pcl_image.width` are passed to the `cv::Mat` constructor. -/
def toInt (n : Nat) : Int :=
  if n % 4294967296 < 2147483648 then ((n % 4294967296 : Nat) : Int)
  else ((n % 4294967296 : Nat) : Int) - 4294967296

/-- Conversion of an `int` to a 32-bit unsigned value, as happens when the matrix
dimensions are stored in the message. -/
def toUInt32 (z : Int) : Nat :=
  (z % 4294967296).toNat

/-- The matrix header `cv::Mat(rows, cols, type, data)`: it owns no pixels, `data` is
the memory seen through the pointer it was given (byte at each offset). -/
structure Mat where
  rows : Int
  cols : Int
  type : MatType
  data : Nat → Nat

/-- The header `std_msgs::Header`, as far as `toImageMsg` fills it. -/
structure Header where
  frame_id : String
  stamp : Nat
  deriving DecidableEq, Repr

/-- The message `sensor_msgs::Image`. -/
structure Image where
  header : Header
  height : Nat
  width : Nat
  encoding : String
  step : Nat
  data : List Nat
  deriving DecidableEq, Repr

/-- The memory seen through `&pcl_image.data[0]`: the buffer's bytes, and past its end
whatever memory holds there (`beyond`, which the program does not control). -/
def bufferMemory (data : List Nat) (beyond : Nat → Nat) (i : Nat) : Nat :=
  data.getD i (beyond (i - data.length))

/-- Modelled from the spec: `cv_bridge::CvImage(header, encoding, image).toImageMsg()`,
a library call whose code is not in the source file: the message takes the header and
the encoding as given and the matrix's dimensions as 32-bit unsigned values; a row is
`width * elemSize` bytes (`step`), and the data are the `step * height` bytes of the
matrix, copied from its memory ("buffer bytes are passed through unchanged"). -/
def cvImageToImageMsg (header : Header) (encoding : String) (image : Mat) : Image :=
  let height := toUInt32 image.rows
  let width := toUInt32 image.cols
  let step := width * image.type.elemSize
  { header := header,
    height := height,
    width := width,
    encoding := encoding,
    step := step,
    data := (List.range (step * height)).map image.data }

/-- The method `toImageMsg`; `s` is the driver object it is a method of, `now` is
what `ros::Time::now()` returns, `beyond` is the memory past the end of the image's
buffer. -/
def toImageMsg (s : Driver) (now : Nat) (beyond : Nat → Nat) (pcl_image : PCLImage) : Image :=
  let image_array := bufferMemory pcl_image.data beyond
  let (type, encoding) :=
    if pcl_image.encoding = "CV_8UC3" then (MatType.CV_8UC3, "bgr8")
    else (MatType.CV_8UC1, "mono8")
  let image_mat : Mat :=
    { rows := toInt pcl_image.height, cols := toInt pcl_image.width, type := type,
      data := image_array }
  let header : Header := { frame_id := "world", stamp := now }
  cvImageToImageMsg header encoding image_mat

/-! ## Sequences of service calls -/

/-- One call of a service of the control surface, with what the outside world
supplies to it (the request, the clock, the device's answer to a grab). -/
inductive Call
  | configureStreaming (req : ConfigureStreamingRequest)
  | startStreaming (data : Bool)
  | captureSingleCloud (req : Bool) (now : Nat) (res : Int) (cloud : PointCloudXYZ)
  deriving DecidableEq, Repr

/-- The driver after one call, on a device with start rule `rule`. -/
def step (rule : StartRule) (s : Driver) : Call → Driver
  | Call.configureStreaming req => (configureStreamingCB rule req s).state
  | Call.startStreaming data => (startStreamingCB rule data s).state
  | Call.captureSingleCloud req now res cloud =>
      (CaptureSingleCloudSrvCB rule req now res cloud s).state

/-- The driver after a finite sequence of calls, first call first. -/
def run (rule : StartRule) (calls : List Call) (s : Driver) : Driver :=
  calls.foldl (step rule) s

/-! ## Observations used by the properties -/

/-- The spec's name for what is attached to the slot. -/
inductive CallbackBinding
  | None
  | CloudOnly
  | ImagesOnly
  | CloudAndImages
  deriving DecidableEq, Repr

/-- The binding a connected callback stands for. -/
def Callback.binding : Callback → CallbackBinding
  | Callback.cloud => CallbackBinding.CloudOnly
  | Callback.images => CallbackBinding.ImagesOnly
  | Callback.cloudAndImages => CallbackBinding.CloudAndImages

/-- The binding of a grabber: `None` when nothing is connected, the callback's
binding when exactly one is; with two or more connected there is no single binding. -/
def Grabber.binding (g : Grabber) : Option CallbackBinding :=
  match g.slot with
  | [] => some CallbackBinding.None
  | [e] => some e.2.binding
  | _ => none

/-- At most one callback is connected, it is the one `connection_` refers to, and its
identifier has been handed out already. -/
@[reducible] def AtMostOne (s : Driver) : Prop :=
  s.ensenso_ptr_.slot.length ≤ 1 ∧
  ∀ e ∈ s.ensenso_ptr_.slot, s.connection_ = some e.1 ∧ e.1 < s.ensenso_ptr_.fresh

/-- The operations issued between two states of the driver: what the later log has
beyond the earlier one. -/
def issued (before after : Driver) : List DeviceOp :=
  after.ensenso_ptr_.log.drop before.ensenso_ptr_.log.length

/-- The commands among a list of operations: everything but the read-only query
`isRunning`. -/
def commands (ops : List DeviceOp) : List DeviceOp :=
  ops.filter (fun o => decide (o ≠ DeviceOp.isRunning))

/-- The callback the spec's precedence table selects for a request: cloud and images,
else images only, else cloud only, else nothing. -/
def selected (req : ConfigureStreamingRequest) : Option Callback :=
  match req.cloud, req.images with
  | true, true => some Callback.cloudAndImages
  | false, true => some Callback.images
  | true, false => some Callback.cloud
  | false, false => none

/-- Streaming implies that a callback is connected (the binding is not None). -/
@[reducible] def StreamingBound (s : Driver) : Prop :=
  s.ensenso_ptr_.running = true → s.ensenso_ptr_.slot ≠ []

/-! ## Example inputs -/

/-- An example state: streaming, with the images callback connected
under handle 0. -/
def streamingImages : Driver :=
  { camera_frame_id_ := "camera_link", connection_ := some 0,
    ensenso_ptr_ := { running := true, slot := [(0, Callback.images)], fresh := 1, log := [] } }

/-- A raw image for the examples: 2 by 1 pixels, three channels, six bytes. -/
def bgrImage : PCLImage :=
  { height := 1, width := 2, encoding := "CV_8UC3", data := [10, 20, 30, 40, 50, 60] }

/-- A raw image with a tag the converter does not know: 2 by 2 pixels, one channel. -/
def unknownImage : PCLImage :=
  { height := 2, width := 2, encoding := "unknown", data := [1, 2, 3, 4] }

/-! ## Shared lemmas -/

/-- Disconnecting the handle `connection_` empties the slot of a driver in which the
only connected callback is the one the handle refers to. -/
theorem disconnect_slot_nil (s : Driver) (g : Grabber) (h : AtMostOne s)
    (hg : g.slot = s.ensenso_ptr_.slot) : (g.disconnect s.connection_).slot = [] := by
  obtain ⟨_, hall⟩ := h
  unfold Grabber.disconnect
  cases hc : s.connection_ with
  | none =>
    simp only [hg]
    cases hs : s.ensenso_ptr_.slot with
    | nil => rfl
    | cons e t =>
      have := (hall e (by simp [hs])).1
      simp [hc] at this
  | some c =>
    simp only [hg, List.filter_eq_nil_iff]
    intro e he
    have := (hall e he).1
    rw [hc] at this
    simp only [Option.some.injEq] at this
    simp [this]

/-- Starting changes neither the slot nor the identifier counter, whatever the rule. -/
theorem start_frame (rule : StartRule) (g : Grabber) :
    (g.start rule).slot = g.slot ∧ (g.start rule).fresh = g.fresh ∧
    (g.start rule).log = g.log ++ [DeviceOp.start] := by
  cases rule
  · simp only [Grabber.start]
    split <;> simp
  · simp [Grabber.start]

/-- What starting does to RunState: under the refusing rule the device runs afterwards
when it ran before or a callback is connected; under the other rule it runs. -/
theorem start_running (rule : StartRule) (g : Grabber) :
    (g.start rule).running =
      match rule with
      | StartRule.refusesUnbound => (g.running || !g.slot.isEmpty)
      | StartRule.takesEffect => true := by
  cases rule
  · simp only [Grabber.start]
    split <;> simp_all
  · rfl

/-- The slot and handle `configureStreamingCB` leaves, from a state where at most the
referred callback is connected: nothing for a request of neither product, otherwise
the one new connection. -/
theorem configureStreamingCB_slot (rule : StartRule) (req : ConfigureStreamingRequest)
    (s : Driver) (h : AtMostOne s) :
    ((configureStreamingCB rule req s).state.ensenso_ptr_.slot =
        match selected req with
        | some f => [(s.ensenso_ptr_.fresh, f)]
        | none => []) ∧
    ((configureStreamingCB rule req s).state.connection_ =
        match selected req with
        | some _ => some s.ensenso_ptr_.fresh
        | none => s.connection_) ∧
    s.ensenso_ptr_.fresh ≤ (configureStreamingCB rule req s).state.ensenso_ptr_.fresh ∧
    (selected req ≠ none →
      (configureStreamingCB rule req s).state.ensenso_ptr_.fresh
        = s.ensenso_ptr_.fresh + 1) := by
  have h1 := disconnect_slot_nil s s.ensenso_ptr_ h rfl
  simp only [Grabber.disconnect, ne_eq, decide_not] at h1
  obtain ⟨c, i⟩ := req
  cases hr : s.ensenso_ptr_.running <;> cases c <;> cases i <;>
    simp [configureStreamingCB, selected, Grabber.isRunning, Grabber.registerCallback,
      start_frame, Grabber.disconnect, Grabber.stop, hr, h1]

/-- The handler `startStreamingCB` leaves the slot, the handle and the identifier
counter as they are. -/
theorem startStreamingCB_frame (rule : StartRule) (data : Bool) (s : Driver) :
    (startStreamingCB rule data s).state.ensenso_ptr_.slot = s.ensenso_ptr_.slot ∧
    (startStreamingCB rule data s).state.connection_ = s.connection_ ∧
    (startStreamingCB rule data s).state.ensenso_ptr_.fresh = s.ensenso_ptr_.fresh := by
  cases data <;> simp [startStreamingCB, start_frame, Grabber.stop]

/-- The capture handler leaves the slot, the handle and the identifier counter as they
are, whatever the request and the device's answer. -/
theorem CaptureSingleCloudSrvCB_frame (rule : StartRule) (req : Bool) (now : Nat)
    (res : Int) (cloud : PointCloudXYZ) (s : Driver) :
    (CaptureSingleCloudSrvCB rule req now res cloud s).state.ensenso_ptr_.slot
        = s.ensenso_ptr_.slot ∧
    (CaptureSingleCloudSrvCB rule req now res cloud s).state.connection_ = s.connection_ ∧
    (CaptureSingleCloudSrvCB rule req now res cloud s).state.ensenso_ptr_.fresh
        = s.ensenso_ptr_.fresh := by
  cases req <;> cases hr : s.ensenso_ptr_.running <;> by_cases h0 : res = 0 <;>
    simp [CaptureSingleCloudSrvCB, singleCloud, Grabber.isRunning, Grabber.grabSingleCloud,
      start_frame, Grabber.stop, hr, h0]

/-- The handler `configureStreamingCB` keeps the slot with at most the referred callback. -/
theorem atMostOne_configureStreamingCB (rule : StartRule) (req : ConfigureStreamingRequest)
    (s : Driver) (h : AtMostOne s) : AtMostOne (configureStreamingCB rule req s).state := by
  obtain ⟨hs, hc, _, hf⟩ := configureStreamingCB_slot rule req s h
  cases hsel : selected req with
  | none =>
    simp only [hsel] at hs
    simp [AtMostOne, hs]
  | some f =>
    simp only [hsel] at hs hc
    have hf := hf (by simp [hsel])
    simp [AtMostOne, hs, hc, hf]

/-- Every call keeps the slot with at most the referred callback. -/
theorem atMostOne_step (rule : StartRule) (s : Driver) (c : Call) (h : AtMostOne s) :
    AtMostOne (step rule s c) := by
  cases c with
  | configureStreaming req => exact atMostOne_configureStreamingCB rule req s h
  | startStreaming data =>
    obtain ⟨h1, h2, h3⟩ := startStreamingCB_frame rule data s
    simp only [step, AtMostOne, h1, h2, h3]
    exact h
  | captureSingleCloud req now res cloud =>
    obtain ⟨h1, h2, h3⟩ := CaptureSingleCloudSrvCB_frame rule req now res cloud s
    simp only [step, AtMostOne, h1, h2, h3]
    exact h

/-- Every sequence of calls keeps the slot with at most the referred callback. -/
theorem atMostOne_run (rule : StartRule) (calls : List Call) (s : Driver)
    (h : AtMostOne s) : AtMostOne (run rule calls s) := by
  induction calls generalizing s with
  | nil => exact h
  | cons c cs ih => exact ih (step rule s c) (atMostOne_step rule s c h)

/-- The driver just constructed has nothing connected. -/
theorem atMostOne_ensenso_ros_driver (fid : Option String) :
    AtMostOne (ensenso_ros_driver fid) := by
  simp [AtMostOne, ensenso_ros_driver]

/-- On a device that refuses to start unbound, `configureStreamingCB` ends Streaming
only with a callback connected, from any state. -/
theorem streamingBound_configureStreamingCB (req : ConfigureStreamingRequest) (s : Driver) :
    StreamingBound (configureStreamingCB StartRule.refusesUnbound req s).state := by
  obtain ⟨c, i⟩ := req
  intro hrun
  revert hrun
  cases hr : s.ensenso_ptr_.running <;> cases c <;> cases i <;>
    simp [configureStreamingCB, Grabber.isRunning, Grabber.registerCallback,
      start_frame, start_running, Grabber.disconnect, Grabber.stop, hr]

/-- On a device that refuses to start unbound, `startStreamingCB` keeps "streaming
implies a callback is connected". -/
theorem streamingBound_startStreamingCB (data : Bool) (s : Driver)
    (hb : StreamingBound s) :
    StreamingBound (startStreamingCB StartRule.refusesUnbound data s).state := by
  intro hrun
  revert hrun
  cases data
  · simp [startStreamingCB, Grabber.stop]
  · simp only [startStreamingCB, if_true, start_frame, start_running, Bool.or_eq_true,
      Bool.not_eq_true', List.isEmpty_eq_false, ne_eq]
    rintro (h | h)
    · exact hb h
    · simpa using h

/-- On a device that refuses to start unbound, the capture handler ends Streaming only
with a callback connected, from any state. -/
theorem streamingBound_CaptureSingleCloudSrvCB (req : Bool) (now : Nat) (res : Int)
    (cloud : PointCloudXYZ) (s : Driver) (hb : StreamingBound s) :
    StreamingBound (CaptureSingleCloudSrvCB StartRule.refusesUnbound req now res cloud s).state := by
  intro hrun
  revert hrun
  cases req
  · simpa [CaptureSingleCloudSrvCB] using hb
  · cases hr : s.ensenso_ptr_.running <;> by_cases h0 : res = 0 <;>
      simp [CaptureSingleCloudSrvCB, singleCloud, Grabber.isRunning, Grabber.grabSingleCloud,
        start_frame, start_running, Grabber.stop, hr, h0]

/-- On a device that refuses to start unbound, every call keeps "streaming implies a
callback is connected". -/
theorem streamingBound_step (s : Driver) (c : Call) (hb : StreamingBound s) :
    StreamingBound (step StartRule.refusesUnbound s c) := by
  cases c with
  | configureStreaming req => exact streamingBound_configureStreamingCB req s
  | startStreaming data => exact streamingBound_startStreamingCB data s hb
  | captureSingleCloud req now res cloud =>
    exact streamingBound_CaptureSingleCloudSrvCB req now res cloud s hb

/-- On a device that refuses to start unbound, every sequence of calls keeps "streaming
implies a callback is connected". -/
theorem streamingBound_run (calls : List Call) (s : Driver) (hb : StreamingBound s) :
    StreamingBound (run StartRule.refusesUnbound calls s) := by
  induction calls generalizing s with
  | nil => exact hb
  | cons c cs ih => exact ih (step StartRule.refusesUnbound s c) (streamingBound_step s c hb)

/-- With nothing connected the binding is None, and only then. -/
theorem binding_eq_none_iff (g : Grabber) :
    g.binding = some CallbackBinding.None ↔ g.slot = [] := by
  unfold Grabber.binding
  cases hs : g.slot with
  | nil => simp
  | cons e t =>
    cases t with
    | nil =>
      obtain ⟨n, f⟩ := e
      cases f <;> simp [Callback.binding]
    | cons e2 t2 => simp

/-- A 32-bit unsigned value survives the conversion to `int` and back. -/
theorem toUInt32_toInt (n : Nat) (h : n < 4294967296) : toUInt32 (toInt n) = n := by
  unfold toUInt32 toInt
  split <;> omega

/-- Reading as many bytes as the buffer holds, from its start, gives the buffer. -/
theorem map_bufferMemory_range (data : List Nat) (beyond : Nat → Nat) :
    (List.range data.length).map (bufferMemory data beyond) = data := by
  apply List.ext_getElem
  · simp
  · intro n h1 h2
    simp [bufferMemory, List.getElem?_eq_getElem h2]

/-! ## The streaming mode router -/

/-- C1: from every prior state (RunState, binding), that is every state with at most
the referred callback connected, and for every request, the binding attached after
`configureStreamingCB` is fixed by the two booleans: (true, true) gives CloudAndImages,
(false, true) gives ImagesOnly, (true, false) gives CloudOnly, (false, false) gives
None; and no connection of the prior slot is still connected afterwards. This holds
whatever the device's start rule. -/
theorem configureStreamingCB_binding (rule : StartRule) (req : ConfigureStreamingRequest)
    (s : Driver) (h : AtMostOne s) :
    (req.cloud = true → req.images = true →
      (configureStreamingCB rule req s).state.ensenso_ptr_.binding
        = some CallbackBinding.CloudAndImages) ∧
    (req.cloud = false → req.images = true →
      (configureStreamingCB rule req s).state.ensenso_ptr_.binding
        = some CallbackBinding.ImagesOnly) ∧
    (req.cloud = true → req.images = false →
      (configureStreamingCB rule req s).state.ensenso_ptr_.binding
        = some CallbackBinding.CloudOnly) ∧
    (req.cloud = false → req.images = false →
      (configureStreamingCB rule req s).state.ensenso_ptr_.binding
        = some CallbackBinding.None) ∧
    (∀ e ∈ s.ensenso_ptr_.slot,
      e ∉ (configureStreamingCB rule req s).state.ensenso_ptr_.slot) := by
  obtain ⟨hs, _, _, _⟩ := configureStreamingCB_slot rule req s h
  obtain ⟨c, i⟩ := req
  refine ⟨?_, ?_, ?_, ?_, ?_⟩
  · intro hc hi
    simp only at hc hi
    subst hc hi
    simp [Grabber.binding, hs, selected, Callback.binding]
  · intro hc hi
    simp only at hc hi
    subst hc hi
    simp [Grabber.binding, hs, selected, Callback.binding]
  · intro hc hi
    simp only at hc hi
    subst hc hi
    simp [Grabber.binding, hs, selected, Callback.binding]
  · intro hc hi
    simp only at hc hi
    subst hc hi
    simp [Grabber.binding, hs, selected]
  · intro e he hmem
    have hlt := (h.2 e he).2
    rw [hs] at hmem
    cases hsel : selected ⟨c, i⟩ with
    | none => simp [hsel] at hmem
    | some f =>
      simp only [hsel, List.mem_singleton] at hmem
      rw [hmem] at hlt
      exact absurd hlt (Nat.lt_irrefl _)

/-- C1 at a concrete input: streaming with ImagesOnly, the request (true, true) leaves
CloudAndImages. -/
theorem configureStreamingCB_binding_witness :
    AtMostOne streamingImages ∧
    (configureStreamingCB StartRule.refusesUnbound ⟨true, true⟩
        streamingImages).state.ensenso_ptr_.binding
      = some CallbackBinding.CloudAndImages :=
  ⟨by decide,
   (configureStreamingCB_binding StartRule.refusesUnbound ⟨true, true⟩ streamingImages
      (by decide)).1 rfl rfl⟩

/-- C2: after every finite sequence of `configureStreamingCB`, `startStreamingCB` and
`CaptureSingleCloudSrvCB` calls from the state after construction, at most one
callback is connected and it is the one `connection_` refers to; and two
`configureStreamingCB` calls with (true, true) from there leave exactly one callback
connected, the cloud-and-images one, referred to by `connection_`. This holds whatever
the device's start rule. -/
theorem run_at_most_one_callback (rule : StartRule) (fid : Option String)
    (calls : List Call) :
    (run rule calls (ensenso_ros_driver fid)).ensenso_ptr_.slot.length ≤ 1 ∧
    (∀ e ∈ (run rule calls (ensenso_ros_driver fid)).ensenso_ptr_.slot,
      (run rule calls (ensenso_ros_driver fid)).connection_ = some e.1) ∧
    (∃ h, (run rule (calls ++ [Call.configureStreaming ⟨true, true⟩,
                          Call.configureStreaming ⟨true, true⟩])
            (ensenso_ros_driver fid)).ensenso_ptr_.slot = [(h, Callback.cloudAndImages)] ∧
          (run rule (calls ++ [Call.configureStreaming ⟨true, true⟩,
                          Call.configureStreaming ⟨true, true⟩])
            (ensenso_ros_driver fid)).connection_ = some h) := by
  have h := atMostOne_run rule calls _ (atMostOne_ensenso_ros_driver fid)
  refine ⟨h.1, fun e he => (h.2 e he).1, ?_⟩
  have h1 := atMostOne_configureStreamingCB rule ⟨true, true⟩ _ h
  obtain ⟨hs, hc, _, _⟩ := configureStreamingCB_slot rule ⟨true, true⟩ _ h1
  simp only [selected] at hs hc
  have hrun : run rule (calls ++ [Call.configureStreaming ⟨true, true⟩,
        Call.configureStreaming ⟨true, true⟩]) (ensenso_ros_driver fid)
      = (configureStreamingCB rule ⟨true, true⟩
          (configureStreamingCB rule ⟨true, true⟩
            (run rule calls (ensenso_ros_driver fid))).state).state := by
    simp only [run, List.foldl_append, List.foldl_cons, List.foldl_nil, step]
  rw [hrun]
  exact ⟨_, hs, hc⟩

/-- C3: for every request and every prior state, `configureStreamingCB` leaves RunState
as it was (Idle stays Idle, Streaming ends Streaming) on a device whose start and stop
take effect, and reports success: it returns true with `res.success` true, whatever
the device's start rule. On the device that refuses to start unbound, it ends
Streaming exactly when it began Streaming and a callback is connected at the end. -/
theorem configureStreamingCB_runstate (rule : StartRule) (req : ConfigureStreamingRequest)
    (s : Driver) :
    (configureStreamingCB StartRule.takesEffect req s).state.ensenso_ptr_.running
      = s.ensenso_ptr_.running ∧
    (configureStreamingCB rule req s).success = true ∧
    (configureStreamingCB rule req s).ret = true ∧
    (configureStreamingCB StartRule.refusesUnbound req s).state.ensenso_ptr_.running
      = (s.ensenso_ptr_.running &&
          !(configureStreamingCB StartRule.refusesUnbound req s).state.ensenso_ptr_.slot.isEmpty) := by
  obtain ⟨c, i⟩ := req
  refine ⟨?_, ?_, ?_, ?_⟩
  · cases hr : s.ensenso_ptr_.running <;> cases c <;> cases i <;>
      simp [configureStreamingCB, Grabber.isRunning, Grabber.registerCallback,
        start_running, Grabber.disconnect, Grabber.stop, hr]
  · simp [configureStreamingCB]
  · simp [configureStreamingCB]
  · cases hr : s.ensenso_ptr_.running <;> cases c <;> cases i <;>
      simp [configureStreamingCB, Grabber.isRunning, Grabber.registerCallback,
        start_running, start_frame, Grabber.disconnect, Grabber.stop, hr]

/-- C4: for every request that selects a callback (binding not None), the operations
`configureStreamingCB` issues on a Streaming device are the `isRunning` query followed
by exactly stop, disconnect (detach), registerCallback of the selected callback
(attach), start, in that order; on an Idle device they are the query followed by
exactly disconnect, registerCallback, with no stop and no start. This holds whatever
the device's start rule. -/
theorem configureStreamingCB_operations (rule : StartRule) (req : ConfigureStreamingRequest)
    (f : Callback) (s : Driver) (h : selected req = some f) :
    (s.ensenso_ptr_.running = true →
      (configureStreamingCB rule req s).state.ensenso_ptr_.log =
        s.ensenso_ptr_.log ++ [DeviceOp.isRunning, DeviceOp.stop, DeviceOp.disconnect,
          DeviceOp.registerCallback f, DeviceOp.start] ∧
      commands (issued s (configureStreamingCB rule req s).state) =
        [DeviceOp.stop, DeviceOp.disconnect, DeviceOp.registerCallback f, DeviceOp.start]) ∧
    (s.ensenso_ptr_.running = false →
      (configureStreamingCB rule req s).state.ensenso_ptr_.log =
        s.ensenso_ptr_.log ++ [DeviceOp.isRunning, DeviceOp.disconnect,
          DeviceOp.registerCallback f] ∧
      commands (issued s (configureStreamingCB rule req s).state) =
        [DeviceOp.disconnect, DeviceOp.registerCallback f]) := by
  obtain ⟨c, i⟩ := req
  constructor <;> intro hr <;> cases c <;> cases i <;> simp [selected] at h <;> subst h <;>
    simp [configureStreamingCB, Grabber.isRunning, Grabber.registerCallback,
      start_frame, Grabber.disconnect, Grabber.stop, hr, issued, commands]

/-- C4 at concrete inputs: streaming with ImagesOnly (Scenario B), the request
(true, true) issues exactly stop, disconnect, registerCallback, start; on the idle
driver just constructed it issues exactly disconnect, registerCallback. -/
theorem configureStreamingCB_operations_witness :
    selected ⟨true, true⟩ = some Callback.cloudAndImages ∧
    streamingImages.ensenso_ptr_.running = true ∧
    commands (issued streamingImages
        (configureStreamingCB StartRule.refusesUnbound ⟨true, true⟩ streamingImages).state) =
      [DeviceOp.stop, DeviceOp.disconnect,
        DeviceOp.registerCallback Callback.cloudAndImages, DeviceOp.start] ∧
    (ensenso_ros_driver none).ensenso_ptr_.running = false ∧
    commands (issued (ensenso_ros_driver none)
        (configureStreamingCB StartRule.refusesUnbound ⟨true, true⟩
          (ensenso_ros_driver none)).state) =
      [DeviceOp.disconnect, DeviceOp.registerCallback Callback.cloudAndImages] :=
  ⟨rfl, rfl,
   ((configureStreamingCB_operations StartRule.refusesUnbound ⟨true, true⟩
      Callback.cloudAndImages streamingImages rfl).1 rfl).2,
   rfl,
   ((configureStreamingCB_operations StartRule.refusesUnbound ⟨true, true⟩
      Callback.cloudAndImages (ensenso_ros_driver none) rfl).2 rfl).2⟩

/-! ## Single-shot capture -/

/-- C5: for every state and every binding, a `CaptureSingleCloudSrvCB` call with
trigger true whose grab succeeds (non-zero result) returns true, leaves a Streaming
device Streaming (its start taking effect) and an Idle device Idle, and leaves the
slot, the handle and so the binding as they were. On the device that refuses to start
unbound, a Streaming device with a callback connected is likewise left Streaming, and
so is every Streaming state reached from construction. -/
theorem CaptureSingleCloudSrvCB_success (rule : StartRule) (now : Nat) (res : Int)
    (cloud : PointCloudXYZ) (s : Driver) (h : res ≠ 0) :
    (CaptureSingleCloudSrvCB rule true now res cloud s).ret = true ∧
    (s.ensenso_ptr_.running = true →
      (CaptureSingleCloudSrvCB StartRule.takesEffect true now res cloud
        s).state.ensenso_ptr_.running = true) ∧
    (s.ensenso_ptr_.running = false →
      (CaptureSingleCloudSrvCB rule true now res cloud s).state.ensenso_ptr_.running
        = false) ∧
    (CaptureSingleCloudSrvCB rule true now res cloud s).state.ensenso_ptr_.slot
      = s.ensenso_ptr_.slot ∧
    (CaptureSingleCloudSrvCB rule true now res cloud s).state.connection_ = s.connection_ ∧
    (CaptureSingleCloudSrvCB rule true now res cloud s).state.ensenso_ptr_.binding
      = s.ensenso_ptr_.binding ∧
    (s.ensenso_ptr_.running = true → s.ensenso_ptr_.slot ≠ [] →
      (CaptureSingleCloudSrvCB StartRule.refusesUnbound true now res cloud
        s).state.ensenso_ptr_.running = true) ∧
    (∀ (fid : Option String) (calls : List Call),
      (run StartRule.refusesUnbound calls (ensenso_ros_driver fid)).ensenso_ptr_.running
        = true →
      (CaptureSingleCloudSrvCB StartRule.refusesUnbound true now res cloud
        (run StartRule.refusesUnbound calls
          (ensenso_ros_driver fid))).state.ensenso_ptr_.running = true) := by
  have key : ∀ t : Driver, t.ensenso_ptr_.running = true → t.ensenso_ptr_.slot ≠ [] →
      (CaptureSingleCloudSrvCB StartRule.refusesUnbound true now res cloud
        t).state.ensenso_ptr_.running = true := by
    intro t ht hslot
    simp [CaptureSingleCloudSrvCB, singleCloud, Grabber.isRunning, Grabber.grabSingleCloud,
      start_frame, start_running, Grabber.stop, ht, hslot, h]
  refine ⟨?_, ?_, ?_, ?_, ?_, ?_, key s, ?_⟩
  · cases hr : s.ensenso_ptr_.running <;>
      simp [CaptureSingleCloudSrvCB, singleCloud, Grabber.isRunning,
        Grabber.grabSingleCloud, hr, h]
  · intro hr
    simp [CaptureSingleCloudSrvCB, singleCloud, Grabber.isRunning, Grabber.grabSingleCloud,
      start_running, Grabber.stop, hr, h]
  · intro hr
    simp [CaptureSingleCloudSrvCB, singleCloud, Grabber.isRunning, Grabber.grabSingleCloud,
      hr, h]
  · exact (CaptureSingleCloudSrvCB_frame rule true now res cloud s).1
  · exact (CaptureSingleCloudSrvCB_frame rule true now res cloud s).2.1
  · simp only [Grabber.binding, (CaptureSingleCloudSrvCB_frame rule true now res cloud s).1]
  · intro fid calls hrun
    have hinit : StreamingBound (ensenso_ros_driver fid) := by
      simp [StreamingBound, ensenso_ros_driver]
    exact key _ hrun (streamingBound_run calls _ hinit hrun)

/-- C5 at concrete inputs: grab result 1, once streaming with the images callback,
once on the idle driver just constructed. -/
theorem CaptureSingleCloudSrvCB_success_witness :
    (1 : Int) ≠ 0 ∧
    (CaptureSingleCloudSrvCB StartRule.takesEffect true 7 1 ⟨"", [1, 2, 3]⟩
      streamingImages).ret = true ∧
    (CaptureSingleCloudSrvCB StartRule.takesEffect true 7 1 ⟨"", [1, 2, 3]⟩
      streamingImages).state.ensenso_ptr_.running = true ∧
    (CaptureSingleCloudSrvCB StartRule.takesEffect true 7 1 ⟨"", [1, 2, 3]⟩
      streamingImages).state.ensenso_ptr_.binding = some CallbackBinding.ImagesOnly ∧
    (CaptureSingleCloudSrvCB StartRule.takesEffect true 7 1 ⟨"", [1, 2, 3]⟩
      (ensenso_ros_driver none)).state.ensenso_ptr_.running = false ∧
    (CaptureSingleCloudSrvCB StartRule.refusesUnbound true 7 1 ⟨"", [1, 2, 3]⟩
      streamingImages).state.ensenso_ptr_.running = true :=
  ⟨by decide,
   (CaptureSingleCloudSrvCB_success StartRule.takesEffect 7 1 ⟨"", [1, 2, 3]⟩
      streamingImages (by decide)).1,
   (CaptureSingleCloudSrvCB_success StartRule.takesEffect 7 1 ⟨"", [1, 2, 3]⟩
      streamingImages (by decide)).2.1 rfl,
   (CaptureSingleCloudSrvCB_success StartRule.takesEffect 7 1 ⟨"", [1, 2, 3]⟩
      streamingImages (by decide)).2.2.2.2.2.1,
   (CaptureSingleCloudSrvCB_success StartRule.takesEffect 7 1 ⟨"", [1, 2, 3]⟩
      (ensenso_ros_driver none) (by decide)).2.2.1 rfl,
   (CaptureSingleCloudSrvCB_success StartRule.takesEffect 7 1 ⟨"", [1, 2, 3]⟩
      streamingImages (by decide)).2.2.2.2.2.2.1 rfl (by decide)⟩

/-- C6, the code against the claim: whenever the grab fails (result 0), `singleCloud`
returns 0 with the device Idle, whatever RunState was before and whatever the device's
start rule. At the failing input (Streaming, images callback connected) it has issued
the query, stop and the grab but no start, and the capture handler returns false with
the device Idle. -/
theorem singleCloud_failure_leaves_idle :
    (∀ (rule : StartRule) (cloud : PointCloudXYZ) (s : Driver),
      (singleCloud rule 0 cloud s).1 = 0 ∧
      (singleCloud rule 0 cloud s).2.2.ensenso_ptr_.running = false) ∧
    streamingImages.ensenso_ptr_.running = true ∧
    (∀ rule : StartRule,
      (singleCloud rule 0 ⟨"", []⟩ streamingImages).1 = 0 ∧
      (singleCloud rule 0 ⟨"", []⟩ streamingImages).2.2.ensenso_ptr_.running = false ∧
      issued streamingImages (singleCloud rule 0 ⟨"", []⟩ streamingImages).2.2 =
        [DeviceOp.isRunning, DeviceOp.stop, DeviceOp.grabSingleCloud] ∧
      (CaptureSingleCloudSrvCB rule true 7 0 ⟨"", []⟩ streamingImages).ret = false ∧
      (CaptureSingleCloudSrvCB rule true 7 0 ⟨"", []⟩
        streamingImages).state.ensenso_ptr_.running = false) := by
  refine ⟨?_, by decide, ?_⟩
  · intro rule cloud s
    cases hr : s.ensenso_ptr_.running <;>
      simp [singleCloud, Grabber.isRunning, Grabber.grabSingleCloud, Grabber.stop, hr]
  · intro rule
    cases rule <;> decide

/-- C10: for every state, `CaptureSingleCloudSrvCB` with trigger false returns false,
issues no operation at all and leaves the whole driver, RunState and binding included,
as it was; and for every trigger the call returns true exactly when the trigger is
true and the grab succeeded (non-zero result). This holds whatever the device's start
rule. -/
theorem CaptureSingleCloudSrvCB_trigger (rule : StartRule) (now : Nat) (res : Int)
    (cloud : PointCloudXYZ) (s : Driver) :
    (CaptureSingleCloudSrvCB rule false now res cloud s).ret = false ∧
    (CaptureSingleCloudSrvCB rule false now res cloud s).state = s ∧
    issued s (CaptureSingleCloudSrvCB rule false now res cloud s).state = [] ∧
    (∀ req : Bool,
      (CaptureSingleCloudSrvCB rule req now res cloud s).ret = true
        ↔ (req = true ∧ res ≠ 0)) := by
  refine ⟨rfl, rfl, ?_, ?_⟩
  · simp [CaptureSingleCloudSrvCB, issued]
  · intro req
    cases req <;> by_cases h0 : res = 0 <;>
      simp [CaptureSingleCloudSrvCB, singleCloud, Grabber.grabSingleCloud, h0]

/-! ## The control surface as a state machine -/

/-- C7: on the device of section 4.1, whose `start()` fails when no callback is
connected, in every state reached from construction by any sequence of
`configureStreamingCB`, `startStreamingCB` and `CaptureSingleCloudSrvCB` calls,
Streaming implies that a callback is connected, so the binding is not None. In
particular `startStreamingCB(true)` made there with nothing connected leaves the
device Idle, and `configureStreamingCB` made there never ends Streaming with nothing
connected, whatever the request. -/
theorem streaming_implies_binding (fid : Option String) (calls : List Call) :
    StreamingBound (run StartRule.refusesUnbound calls (ensenso_ros_driver fid)) ∧
    ((run StartRule.refusesUnbound calls (ensenso_ros_driver fid)).ensenso_ptr_.running = true →
      (run StartRule.refusesUnbound calls (ensenso_ros_driver fid)).ensenso_ptr_.binding
        ≠ some CallbackBinding.None) ∧
    ((run StartRule.refusesUnbound calls (ensenso_ros_driver fid)).ensenso_ptr_.slot = [] →
      (startStreamingCB StartRule.refusesUnbound true
        (run StartRule.refusesUnbound calls
          (ensenso_ros_driver fid))).state.ensenso_ptr_.running = false) ∧
    (∀ req : ConfigureStreamingRequest,
      StreamingBound (configureStreamingCB StartRule.refusesUnbound req
        (run StartRule.refusesUnbound calls (ensenso_ros_driver fid))).state) := by
  have hinit : StreamingBound (ensenso_ros_driver fid) := by
    simp [StreamingBound, ensenso_ros_driver]
  have hb := streamingBound_run calls _ hinit
  refine ⟨hb, ?_, ?_, fun req => streamingBound_configureStreamingCB req _⟩
  · intro hrun hnone
    exact hb hrun ((binding_eq_none_iff _).1 hnone)
  · intro hslot
    have hs := streamingBound_startStreamingCB true _ hb
    have hf := (startStreamingCB_frame StartRule.refusesUnbound true
      (run StartRule.refusesUnbound calls (ensenso_ros_driver fid))).1
    cases hr : (startStreamingCB StartRule.refusesUnbound true
        (run StartRule.refusesUnbound calls
          (ensenso_ros_driver fid))).state.ensenso_ptr_.running with
    | false => rfl
    | true => exact absurd (hf.trans hslot) (hs hr)

/-- C7 at concrete inputs: after configure (true, false), start, a capture and
configure (false, true) the device is Streaming with the images callback connected;
and `startStreamingCB(true)` right after construction, with nothing connected, leaves
the device Idle. -/
theorem streaming_implies_binding_witness :
    (run StartRule.refusesUnbound
      [Call.configureStreaming ⟨true, false⟩, Call.startStreaming true,
       Call.captureSingleCloud true 3 1 ⟨"", []⟩, Call.configureStreaming ⟨false, true⟩]
      (ensenso_ros_driver none)).ensenso_ptr_.running = true ∧
    (run StartRule.refusesUnbound
      [Call.configureStreaming ⟨true, false⟩, Call.startStreaming true,
       Call.captureSingleCloud true 3 1 ⟨"", []⟩, Call.configureStreaming ⟨false, true⟩]
      (ensenso_ros_driver none)).ensenso_ptr_.binding ≠ some CallbackBinding.None ∧
    (run StartRule.refusesUnbound [] (ensenso_ros_driver none)).ensenso_ptr_.slot = [] ∧
    (startStreamingCB StartRule.refusesUnbound true
      (run StartRule.refusesUnbound [] (ensenso_ros_driver none))).state.ensenso_ptr_.running
      = false :=
  ⟨by decide,
   (streaming_implies_binding none
      [Call.configureStreaming ⟨true, false⟩, Call.startStreaming true,
       Call.captureSingleCloud true 3 1 ⟨"", []⟩, Call.configureStreaming ⟨false, true⟩]).2.1
      (by decide),
   rfl,
   (streaming_implies_binding none []).2.2.1 rfl⟩

/-! ## The frame converter -/

/-- C8: for every raw image, `toImageMsg` emits encoding `bgr8` exactly when the native
tag is `CV_8UC3` and `mono8` for every other tag; the output has the width and height
of the input; and for a well-formed input, whose buffer holds width * height * channel
count bytes, the output bytes are the input bytes. Width and height are 32-bit
unsigned values, as the fields of `pcl::PCLImage` are. -/
theorem toImageMsg_layout (s : Driver) (now : Nat) (beyond : Nat → Nat) (img : PCLImage) :
    ((toImageMsg s now beyond img).encoding = "bgr8" ↔ img.encoding = "CV_8UC3") ∧
    (img.encoding ≠ "CV_8UC3" → (toImageMsg s now beyond img).encoding = "mono8") ∧
    (img.width < 4294967296 → (toImageMsg s now beyond img).width = img.width) ∧
    (img.height < 4294967296 → (toImageMsg s now beyond img).height = img.height) ∧
    (img.width < 4294967296 → img.height < 4294967296 →
      img.data.length = img.width * img.height * (if img.encoding = "CV_8UC3" then 3 else 1) →
      (toImageMsg s now beyond img).data = img.data) := by
  refine ⟨?_, ?_, ?_, ?_, ?_⟩
  · by_cases h : img.encoding = "CV_8UC3" <;> simp [toImageMsg, cvImageToImageMsg, h]
  · intro h
    simp [toImageMsg, cvImageToImageMsg, h]
  · intro h
    by_cases he : img.encoding = "CV_8UC3" <;>
      simp [toImageMsg, cvImageToImageMsg, he, toUInt32_toInt _ h]
  · intro h
    by_cases he : img.encoding = "CV_8UC3" <;>
      simp [toImageMsg, cvImageToImageMsg, he, toUInt32_toInt _ h]
  · intro hw hh hlen
    by_cases he : img.encoding = "CV_8UC3"
    · simp only [he, if_true] at hlen
      have hsize : img.width * 3 * img.height = img.data.length := by
        rw [hlen, Nat.mul_right_comm]
      simp only [toImageMsg, cvImageToImageMsg, he, if_true, MatType.elemSize,
        toUInt32_toInt _ hw, toUInt32_toInt _ hh]
      rw [hsize]
      exact map_bufferMemory_range _ _
    · simp only [he, if_false] at hlen
      have hsize : img.width * 1 * img.height = img.data.length := by
        rw [hlen, Nat.mul_right_comm]
      simp only [toImageMsg, cvImageToImageMsg, he, if_false, MatType.elemSize,
        toUInt32_toInt _ hw, toUInt32_toInt _ hh]
      rw [hsize]
      exact map_bufferMemory_range _ _

/-- C8 at concrete inputs: a 2 by 1 image tagged `CV_8UC3` comes out as `bgr8` with
the same dimensions and bytes (Scenario C, scaled down); an image tagged `unknown`
comes out as `mono8` with its four bytes (Scenario D). -/
theorem toImageMsg_layout_witness :
    bgrImage.encoding = "CV_8UC3" ∧
    (toImageMsg (ensenso_ros_driver none) 5 (fun _ => 0) bgrImage).encoding = "bgr8" ∧
    (toImageMsg (ensenso_ros_driver none) 5 (fun _ => 0) bgrImage).width = 2 ∧
    (toImageMsg (ensenso_ros_driver none) 5 (fun _ => 0) bgrImage).height = 1 ∧
    (toImageMsg (ensenso_ros_driver none) 5 (fun _ => 0) bgrImage).data
      = [10, 20, 30, 40, 50, 60] ∧
    unknownImage.encoding ≠ "CV_8UC3" ∧
    (toImageMsg (ensenso_ros_driver none) 5 (fun _ => 0) unknownImage).encoding = "mono8" ∧
    (toImageMsg (ensenso_ros_driver none) 5 (fun _ => 0) unknownImage).data = [1, 2, 3, 4] :=
  ⟨rfl,
   (toImageMsg_layout (ensenso_ros_driver none) 5 (fun _ => 0) bgrImage).1.2 rfl,
   (toImageMsg_layout (ensenso_ros_driver none) 5 (fun _ => 0) bgrImage).2.2.1 (by decide),
   (toImageMsg_layout (ensenso_ros_driver none) 5 (fun _ => 0) bgrImage).2.2.2.1 (by decide),
   (toImageMsg_layout (ensenso_ros_driver none) 5 (fun _ => 0) bgrImage).2.2.2.2
     (by decide) (by decide) (by decide),
   by decide,
   (toImageMsg_layout (ensenso_ros_driver none) 5 (fun _ => 0) unknownImage).2.1 (by decide),
   (toImageMsg_layout (ensenso_ros_driver none) 5 (fun _ => 0) unknownImage).2.2.2.2
     (by decide) (by decide) (by decide)⟩

/-- C9, the code against the claim: whatever the driver's `camera_frame_id_`, the
header of the image `toImageMsg` returns carries the fixed frame identifier `world`;
with the default `camera_link` configured the two differ. -/
theorem toImageMsg_frame_id_world :
    (∀ (s : Driver) (now : Nat) (beyond : Nat → Nat) (img : PCLImage),
      (toImageMsg s now beyond img).header.frame_id = "world") ∧
    (ensenso_ros_driver none).camera_frame_id_ = "camera_link" ∧
    (toImageMsg (ensenso_ros_driver none) 5 (fun _ => 0) bgrImage).header.frame_id
      ≠ (ensenso_ros_driver none).camera_frame_id_ := by
  refine ⟨?_, rfl, ?_⟩
  · intro s now beyond img
    by_cases he : img.encoding = "CV_8UC3" <;> simp [toImageMsg, cvImageToImageMsg, he]
  · simp [toImageMsg, cvImageToImageMsg, ensenso_ros_driver, bgrImage]

end Ensenso
